import Mathlib

/-!
Verification of the hollow-firmware repository (T-Watch S3 voice-assistant
firmware).  Each definition below is a shallow embedding of a function from
the C++ sources; the theorems at the end of the file settle the claims of
the specification against those definitions.

Machine integers are modelled as `Int`/`Nat`.  `uint32_t` wall-clock
subtraction (`millis()` deltas) is modelled by `sub32`; the `int16_t`
accumulator of the ADPCM encoder wraps modulo 2^16, modelled by `wrap16`.
-/

namespace Hollow

/-- `uint32_t` subtraction `a - b` as performed by the firmware on
`millis()` timestamps (wraps modulo 2^32). -/
def sub32 (a b : Nat) : Nat :=
  (a % 4294967296 + 4294967296 - b % 4294967296) % 4294967296

theorem sub32_eq (a b : Nat) (hle : b ≤ a) (hlt : a - b < 4294967296) :
    sub32 a b = a - b := by
  unfold sub32
  omega

/-!
## IMA ADPCM codec — `src/audio/audio_adpcm.cpp`

The encoder keeps two persistent globals, `ima_pred : int16_t` and
`ima_index : int`, reset by `ima_reset_state()`.  `ima_encode_block`
quantises each 16-bit PCM sample to a 4-bit code and packs two codes per
output byte, low nibble first; an odd leftover nibble is flushed as a
final short byte (the local `haveNibble`/`nibble` pair is not carried to
the next call).

Note on `pred += delta;` in the source: `pred` is `int16_t`, so the sum is
converted back to 16 bits (wrapping) *before* the two clamp comparisons,
which therefore never fire; both the wrap and the (dead) clamps are
reproduced literally below.
-/

/-- The classic 89-entry IMA step-size table (`ima_step_table`). -/
def ima_step_table : Array Int := #[
     7, 8, 9, 10, 11, 12, 13, 14,
    16, 17, 19, 21, 23, 25, 28, 31,
    34, 37, 41, 45, 50, 55, 60, 66,
    73, 80, 88, 97, 107, 118, 130, 143,
   157, 173, 190, 209, 230, 253, 279, 307,
   337, 371, 408, 449, 494, 544, 598, 658,
   724, 796, 876, 963, 1060, 1166, 1282, 1411,
  1552, 1707, 1878, 2066, 2272, 2499, 2749, 3024,
  3327, 3660, 4026, 4428, 4871, 5358, 5894, 6484,
  7132, 7845, 8630, 9493, 10442, 11487, 12635, 13899,
 15289, 16818, 18500, 20350, 22385, 24623, 27086, 29794,
 32767]

/-- The 16-entry IMA index-adjustment table (`ima_index_table`). -/
def ima_index_table : Array Int := #[
   -1, -1, -1, -1, 2, 4, 6, 8,
   -1, -1, -1, -1, 2, 4, 6, 8]

/-- Persistent codec state: the globals `ima_pred` and `ima_index`. -/
structure ImaState where
  pred : Int
  index : Int
  deriving DecidableEq, Repr

/-- `ima_reset_state()`. -/
def ima_reset_state : ImaState := ⟨0, 0⟩

/-- `int16_t` wrap-around conversion (two's complement, 16 bits). -/
def wrap16 (z : Int) : Int := (z + 32768) % 65536 - 32768

/-- Lines 60-62 of the source: `pred += delta` (16-bit wrap, since `pred`
is `int16_t`), then the two clamp comparisons (dead after the wrap, kept
literally). -/
def predUpdate (pred delta : Int) : Int :=
  let pred1 := wrap16 (pred + delta)
  let pred2 := if pred1 > 32767 then 32767 else pred1
  if pred2 < -32768 then -32768 else pred2

/-- Lines 64-66 of the source: `index += ima_index_table[code]` clamped
into `[0, 88]`. -/
def indexUpdate (index : Int) (code : Nat) : Int :=
  let index1 := index + ima_index_table.getD code 0
  let index2 := if index1 < 0 then 0 else index1
  if index2 > 88 then 88 else index2

/-- One iteration of the sample loop of `ima_encode_block`: quantise one
PCM sample against the current state, returning the updated state and the
4-bit code.  (`step >> k` on the non-negative step value is `step / 2^k`.) -/
def encodeSample (s : ImaState) (sample : Int) : ImaState × Nat :=
  let diff0 := sample - s.pred
  let neg := diff0 < 0
  let diff1 := if neg then -diff0 else diff0
  let step := ima_step_table.getD s.index.toNat 0
  let b4 := diff1 ≥ step
  let diff2 := if b4 then diff1 - step else diff1
  let b2 := diff2 ≥ step / 2
  let diff3 := if b2 then diff2 - step / 2 else diff2
  let b1 := diff3 ≥ step / 4
  let code : Nat :=
    (if neg then 8 else 0) + (if b4 then 4 else 0) +
    (if b2 then 2 else 0) + (if b1 then 1 else 0)
  let delta0 := step / 8 + (if b4 then step else 0) +
    (if b2 then step / 2 else 0) + (if b1 then step / 4 else 0)
  let delta := if neg then -delta0 else delta0
  (⟨predUpdate s.pred delta, indexUpdate s.index code⟩, code)

/-- The packing loop of `ima_encode_block`: `pending` is the
`haveNibble`/`nibble` pair (a stored low nibble awaiting its partner);
a leftover nibble is flushed as a final byte with zero high nibble. -/
def encodeLoop : ImaState → Option Nat → List Int → List Nat × ImaState
  | s, none, [] => ([], s)
  | s, some nib, [] => ([nib], s)
  | s, pending, x :: xs =>
    let r := encodeSample s x
    match pending with
    | none => encodeLoop r.1 (some (r.2 % 16)) xs
    | some nib =>
      let rest := encodeLoop r.1 none xs
      ((nib + (r.2 % 16) * 16) :: rest.1, rest.2)

/-- `ima_encode_block(pcm, pcmCount, out)`: returns the emitted bytes and
the updated persistent state.  Each call starts with an empty nibble
buffer (`haveNibble` is a local initialised to `false`). -/
def ima_encode_block (s : ImaState) (pcm : List Int) : List Nat × ImaState :=
  encodeLoop s none pcm

/-- Codec state invariant from the data-model section of the spec. -/
def imaInv (s : ImaState) : Prop :=
  0 ≤ s.index ∧ s.index ≤ 88 ∧ -32768 ≤ s.pred ∧ s.pred ≤ 32767

instance (s : ImaState) : Decidable (imaInv s) := by
  unfold imaInv; infer_instance

/-!
## Power state machine — `src/power/power_manager.cpp`

State variables modelled: `g_powerState`, the legacy globals `g_sleeping`
and `g_dimmed`, `s_lastActivityMs`, `s_lightSleepEnteredMs` and
`g_wokeFromSleep`.  Inputs read by the functions: `millis()` (`now`),
`g_recordingInProgress` and `g_isCharging`.

Pure hardware effects of the source (display wakeup/brightness/sleep via
`displaySetActive`/`displaySetDimmed`/`displaySetOff`, CPU-frequency and
esp-pm lock calls, `bleEnterSleepMode`/`bleExitSleepMode` radio requests,
and `checkBatteryHealth`, which reads the PMU and may power the device
off but never writes any of the variables above) do not change the
modelled state and are not represented.  `powerForceDeepSleep()` never
returns (the device resets from deep sleep); its observable outcome is
modelled as the terminal `POWER_DEEP_SLEEP` state.
-/

/-- `PowerState` (power_manager.h). -/
inductive PowerState
  | POWER_ACTIVE
  | POWER_DIMMED
  | POWER_LIGHT_SLEEP
  | POWER_DEEP_SLEEP
  deriving DecidableEq, Repr

export PowerState (POWER_ACTIVE POWER_DIMMED POWER_LIGHT_SLEEP POWER_DEEP_SLEEP)

/-- Timeout constants from power_manager.h. -/
def TIMEOUT_DIM_MS : Nat := 10000

def TIMEOUT_LIGHT_SLEEP_MS : Nat := 20000

def TIMEOUT_DEEP_SLEEP_MS : Nat := 280000

/-- Power-manager state variables. -/
structure PowerSt where
  powerState : PowerState
  sleeping : Bool
  dimmed : Bool
  lastActivityMs : Nat
  lightSleepEnteredMs : Nat
  wokeFromSleep : Bool
  deriving DecidableEq, Repr

/-- State after `powerManagerInit()` (called with `millis() = now`). -/
def powerInit (now : Nat) : PowerSt :=
  { powerState := POWER_ACTIVE, sleeping := false, dimmed := false,
    lastActivityMs := now, lightSleepEnteredMs := 0, wokeFromSleep := false }

/-- `powerMarkActivity()` at time `now`. -/
def powerMarkActivity (s : PowerSt) (now : Nat) : PowerSt :=
  let s0 := { s with lastActivityMs := now }
  if s0.powerState = POWER_LIGHT_SLEEP then
    { s0 with wokeFromSleep := true }
  else if s0.powerState = POWER_DIMMED then
    { s0 with
      powerState := POWER_ACTIVE
      sleeping := false
      dimmed := false
      lightSleepEnteredMs := 0 }
  else s0

/-- `powerUpdate()` at time `now`, reading `g_recordingInProgress` and
`g_isCharging`. -/
def powerUpdate (s : PowerSt) (now : Nat) (recording charging : Bool) : PowerSt :=
  let idleMs := sub32 now s.lastActivityMs
  if recording then
    if s.powerState ≠ POWER_ACTIVE then
      { s with
        powerState := POWER_ACTIVE
        sleeping := false
        dimmed := false }
    else s
  else
    match s.powerState with
    | POWER_ACTIVE =>
      if idleMs ≥ TIMEOUT_DIM_MS then
        { s with
          powerState := POWER_DIMMED
          dimmed := true
          sleeping := false }
      else s
    | POWER_DIMMED =>
      if idleMs ≥ TIMEOUT_LIGHT_SLEEP_MS ∧ charging = false then
        { s with
          powerState := POWER_LIGHT_SLEEP
          sleeping := true
          dimmed := false
          lightSleepEnteredMs := now }
      else s
    | POWER_LIGHT_SLEEP =>
      if charging then
        { s with
          powerState := POWER_DIMMED
          dimmed := true
          sleeping := false }
      else if TIMEOUT_DEEP_SLEEP_MS > 0 ∧
          sub32 now s.lightSleepEnteredMs ≥ TIMEOUT_DEEP_SLEEP_MS then
        { s with powerState := POWER_DEEP_SLEEP }
      else s
    | POWER_DEEP_SLEEP => s

/-- `powerForceActive()` at time `now`. -/
def powerForceActive (s : PowerSt) (now : Nat) : PowerSt :=
  { s with
    powerState := POWER_ACTIVE
    sleeping := false
    dimmed := false
    lastActivityMs := now }

/-- `powerForceLightSleep()` at time `now`: a no-op while
`g_recordingInProgress` is set. -/
def powerForceLightSleep (s : PowerSt) (now : Nat) (recording : Bool) : PowerSt :=
  if recording then s
  else
    { s with
      powerState := POWER_LIGHT_SLEEP
      sleeping := true
      dimmed := false
      lightSleepEnteredMs := now }

/-!
## Application / recording state machine — `src/system/state.cpp`,
`src/audio/audio_i2s.cpp`, disconnect handler of `src/ble/ble_core.cpp`

State variables modelled: `g_bleConnected`, the audio characteristic's
notification CCCD bit (read by `bleNotifyEnabled()`), `s_i2sInstalled`,
`s_i2sRunning`, `g_is_recording`, `g_recordingInProgress`, `currentState`,
`s_recordingStartMs` (audio_i2s), `g_recordingStartMs` (state.cpp),
`g_waitingStartMs`, `s_consecutiveErrors`, `s_totalChunksSent`,
`s_lastSuccessfulSendMs`, `g_recorded_adpcm` and the codec globals.

External effects not represented in the state: I2S driver/pin/GPIO calls
(their success is an explicit `hwOk` input where the source branches on
it), BLE notifications (`bleSendControlMessage`, `bleSendAudioChunk`),
connection-parameter requests (`bleEnterActiveTransfer` /
`bleExitActiveTransfer`, modelled separately below), `markActivity` /
`powerMarkActivity` (power model above), watchdog resets, logging, and
the time-sync bookkeeping of `timeSyncHandleConnected` /
`timeSyncHandleDisconnected` (which touch no modelled variable).
-/

/-- `UIState` (state.h). -/
inductive UIState
  | IDLE
  | RECORDING
  | ANSWER
  | WAITING_TIME
  | WAITING_ANSWER
  | CHARGING
  deriving DecidableEq, Repr

export UIState (IDLE RECORDING ANSWER WAITING_TIME WAITING_ANSWER)

/-- `RECORDING_MAX_DURATION_MS` (audio_i2s.cpp). -/
def RECORDING_MAX_DURATION_MS : Nat := 60000

/-- `WAITING_ANSWER_TIMEOUT_MS` (state.h). -/
def WAITING_ANSWER_TIMEOUT_MS : Nat := 30000

/-- Shared application/recording state. -/
structure RecSt where
  bleConnected : Bool
  notifyEnabled : Bool
  micInstalled : Bool
  micRunning : Bool
  isRecording : Bool
  recordingInProgress : Bool
  currentState : UIState
  audioStartMs : Nat
  stateStartMs : Nat
  waitingStartMs : Nat
  consecutiveErrors : Nat
  totalChunksSent : Nat
  lastSuccessfulSendMs : Nat
  recordedAdpcm : List Nat
  ima : ImaState
  deriving DecidableEq, Repr

/-- `canSendControlMessages()` (ble_core.cpp:432-434): connected and the
audio characteristic's 0x2902 descriptor has notifications enabled. -/
def canSendControlMessages (s : RecSt) : Bool :=
  s.bleConnected && s.notifyEnabled

/-- `startMic()` at time `now`; `hwOk` is the combined success of the
`i2s_driver_install` / `i2s_set_pin` / `i2s_start` hardware calls the
source checks (on any failure it returns with `s_i2sRunning` still
false). -/
def startMic (s : RecSt) (now : Nat) (hwOk : Bool) : RecSt :=
  if s.micRunning then s
  else if hwOk then
    { s with
      micInstalled := true
      audioStartMs := now
      lastSuccessfulSendMs := now
      consecutiveErrors := 0
      totalChunksSent := 0
      micRunning := true }
  else s

/-- `stopMic()`. -/
def stopMic (s : RecSt) : RecSt :=
  if s.micRunning = false then s else { s with micRunning := false }

/-- `clearRecordingBuffer()`. -/
def clearRecordingBuffer (s : RecSt) : RecSt :=
  { s with recordedAdpcm := [] }

/-- `startRecording()` (state.cpp) at time `now`. -/
def startRecording (s : RecSt) (now : Nat) (hwOk : Bool) : RecSt :=
  if canSendControlMessages s = false then s
  else
    let s1 := clearRecordingBuffer (startMic s now hwOk)
    { s1 with
      isRecording := true
      recordingInProgress := true
      stateStartMs := now
      waitingStartMs := 0
      currentState := RECORDING
      ima := ima_reset_state }

/-- `stopRecording()` (state.cpp) at time `now`. -/
def stopRecording (s : RecSt) (now : Nat) : RecSt :=
  let s1 := stopMic s
  let s2 :=
    { s1 with
      recordingInProgress := false
      isRecording := false
      stateStartMs := 0 }
  if canSendControlMessages s2 then
    { s2 with currentState := WAITING_ANSWER, waitingStartMs := now }
  else
    { s2 with currentState := IDLE, waitingStartMs := 0 }

/-- `ServerCallbacks::onConnect` (ble_core.cpp): the fields of this model
it writes. -/
def onConnect (s : RecSt) : RecSt :=
  { s with bleConnected := true }

/-- `ServerCallbacks::onDisconnect` (ble_core.cpp:192-227): clears the
connection, tears down an in-progress recording and forces the UI state
to `IDLE`. -/
def onDisconnect (s : RecSt) : RecSt :=
  let s1 := { s with bleConnected := false }
  let s2 :=
    if s1.recordingInProgress then
      stopMic
        { s1 with
          recordingInProgress := false
          stateStartMs := 0
          isRecording := false }
    else s1
  { s2 with currentState := IDLE }

/-- A CCCD write on the audio characteristic enabling or disabling
notifications (changes the value read by `bleNotifyEnabled()`). -/
def setNotify (s : RecSt) (b : Bool) : RecSt :=
  { s with notifyEnabled := b }

/-- One `i2s_read` outcome inside `updateRecording`: `none` models a
failed read (`err != ESP_OK`), `some pcm` a successful read returning
the given samples (possibly zero of them). -/
def updateRecording (s : RecSt) (now : Nat) (read : Option (List Int)) : RecSt :=
  if s.micRunning = false ∨ s.isRecording = false then s
  else if sub32 now s.audioStartMs > RECORDING_MAX_DURATION_MS then
    stopRecording s now
  else if s.bleConnected = false then
    stopRecording s now
  else
    match read with
    | none => { s with consecutiveErrors := s.consecutiveErrors + 1 }
    | some pcm =>
      if pcm.length = 0 then s
      else
        let r := ima_encode_block s.ima pcm
        if r.1.length = 0 then
          { s with ima := r.2, consecutiveErrors := s.consecutiveErrors + 1 }
        else
          { s with
            ima := r.2
            consecutiveErrors := 0
            lastSuccessfulSendMs := now
            totalChunksSent := s.totalChunksSent + 1 }

/-- `checkWaitingTimeout()` (state.cpp) at time `now`. -/
def checkWaitingTimeout (s : RecSt) (now : Nat) : RecSt :=
  if s.currentState ≠ WAITING_ANSWER ∧ s.currentState ≠ WAITING_TIME then s
  else if s.waitingStartMs = 0 then { s with waitingStartMs := now }
  else if sub32 now s.waitingStartMs ≥ WAITING_ANSWER_TIMEOUT_MS then
    { s with currentState := IDLE, waitingStartMs := 0 }
  else s

/-- The events that mutate the modelled application/recording state:
BLE connect/disconnect callbacks, CCCD writes, the touch-handler
`startRecording`/`stopRecording` calls, the main-loop recording pump and
the waiting-timeout check. -/
inductive RecEvent
  | connect
  | disconnect
  | cccdWrite (b : Bool)
  | startRec (now : Nat) (hwOk : Bool)
  | stopRec (now : Nat)
  | pump (now : Nat) (read : Option (List Int))
  | waitCheck (now : Nat)

/-- Event-step function for the application/recording state. -/
def recStep (s : RecSt) : RecEvent → RecSt
  | RecEvent.connect => onConnect s
  | RecEvent.disconnect => onDisconnect s
  | RecEvent.cccdWrite b => setNotify s b
  | RecEvent.startRec now hwOk => startRecording s now hwOk
  | RecEvent.stopRec now => stopRecording s now
  | RecEvent.pump now read => updateRecording s now read
  | RecEvent.waitCheck now => checkWaitingTimeout s now

/-- State after `setup()` completes: disconnected, not recording, mic
driver installed but stopped, UI at `IDLE`. -/
def recInit : RecSt :=
  { bleConnected := false, notifyEnabled := false, micInstalled := true,
    micRunning := false, isRecording := false, recordingInProgress := false,
    currentState := IDLE, audioStartMs := 0, stateStartMs := 0,
    waitingStartMs := 0, consecutiveErrors := 0, totalChunksSent := 0,
    lastSuccessfulSendMs := 0, recordedAdpcm := [], ima := ima_reset_state }

/-- Reachability: some event trace leads from the post-`setup()` state to
`s`. -/
def recReachable (s : RecSt) : Prop :=
  ∃ tr : List RecEvent, s = tr.foldl recStep recInit

/-!
## File-retrieval channel — `src/ble/ble_file.cpp`

`sendRecordedFileOverBle` is modelled as the sequence of notification
payloads it emits (each payload a byte list) as a function of the
recorded buffer `g_recorded_adpcm`; the characteristic pointer and the
pacing `vTaskDelay(5)` are hardware-side and not represented.
-/

/-- The 4-byte little-endian length header (ble_file.cpp:15-20). -/
def le32 (n : Nat) : List Nat :=
  [n % 256, n / 256 % 256, n / 65536 % 256, n / 16777216 % 256]

/-- The chunking loop of `sendRecordedFileOverBle` (ble_file.cpp:25-34):
128-byte chunks, the final one possibly shorter. -/
def fileChunks (buf : List Nat) : List (List Nat) :=
  if buf = [] then []
  else buf.take 128 :: fileChunks (buf.drop 128)
termination_by buf.length
decreasing_by
  simp only [List.length_drop]
  have : buf.length ≠ 0 := by
    intro h
    exact (by assumption : buf ≠ []) (List.length_eq_zero.mp h)
  omega

/-- `sendRecordedFileOverBle` (ble_file.cpp:9-35): the notifications
emitted for the recorded buffer.  An empty buffer emits nothing. -/
def sendRecordedFileOverBle (buf : List Nat) : List (List Nat) :=
  if buf = [] then []
  else le32 buf.length :: fileChunks buf

/-- `FileCharCallbacks::onWrite` (ble_file.cpp:37-44): a transfer runs
only for a write of the single byte `0x01`. -/
def fileOnWrite (buf : List Nat) (value : List Nat) : List (List Nat) :=
  if value = [1] then sendRecordedFileOverBle buf else []

/-!
## Connection-parameter negotiation — `src/ble/ble_core.cpp`

State variables modelled: `g_connId` (`65535` is the disconnected
sentinel), `g_bleConnected`, `g_activeTransfer`, `s_lastParamUpdateMs`,
`s_bleSleepMode` and `s_fastAdvActive`.  Each request function returns
the new state together with a flag telling whether a radio-layer
connection-parameter request (`esp_ble_gap_update_conn_params`) was
issued.  Advertising-interval calls and the error counters are external
to the claims and not represented.
-/

/-- `BLE_PARAM_UPDATE_MIN_INTERVAL_MS` (ble_core.cpp:105). -/
def BLE_PARAM_UPDATE_MIN_INTERVAL_MS : Nat := 1500

/-- Connection-parameter negotiation state. -/
structure BleSt where
  connId : Nat
  bleConnected : Bool
  activeTransfer : Bool
  lastParamUpdateMs : Nat
  sleepMode : Bool
  fastAdvActive : Bool
  deriving DecidableEq, Repr

/-- `requestConnectionParams(activeTransfer)` (ble_core.cpp:118-154) at
time `now`: skipped while disconnected, when the requested profile is
already active, or when the previous change is less than
`BLE_PARAM_UPDATE_MIN_INTERVAL_MS` old. -/
def requestConnectionParams (s : BleSt) (now : Nat) (activeTransfer : Bool) :
    BleSt × Bool :=
  if s.connId = 65535 ∨ s.bleConnected = false then (s, false)
  else if s.activeTransfer = activeTransfer then (s, false)
  else if s.lastParamUpdateMs > 0 ∧
      sub32 now s.lastParamUpdateMs < BLE_PARAM_UPDATE_MIN_INTERVAL_MS then
    (s, false)
  else
    ({ s with
        activeTransfer := activeTransfer
        lastParamUpdateMs := now }, true)

/-- `bleEnterSleepMode()` (ble_core.cpp:478-504): guarded only by the
sleep-mode flag; when connected it issues a connection-parameter request
for the sleep profile directly (no throttle, no bookkeeping update). -/
def bleEnterSleepMode (s : BleSt) : BleSt × Bool :=
  if s.sleepMode then (s, false)
  else
    let s1 :=
      { s with
        sleepMode := true
        fastAdvActive := false }
    if s1.bleConnected ∧ s1.connId ≠ 65535 then (s1, true) else (s1, false)

/-- `bleExitSleepMode()` (ble_core.cpp:506-531). -/
def bleExitSleepMode (s : BleSt) : BleSt × Bool :=
  if s.sleepMode = false then (s, false)
  else
    let s1 := { s with sleepMode := false }
    if s1.bleConnected ∧ s1.connId ≠ 65535 then (s1, true) else (s1, false)

/-!
## Boot wake handling — `setup()` in `src/main.cpp`

`setup()` reads the wake cause only to decide the log line and whether to
play the boot animation; it then runs every initialisation step and
enters the main loop.  `powerValidateWake()` is declared in
power_manager.h:112-114 ("Validates deep sleep wake cause.  If spurious,
goes back to deep sleep") but has no definition anywhere in the
repository and no caller; in particular the wake line is never
re-sampled and the boot is never aborted.  The model keeps the re-sampled
wake-line reading as an input to make that independence explicit.
-/

/-- `esp_sleep_get_wakeup_cause()` values relevant to `setup()`. -/
inductive WakeCause
  | ext0
  | ext1
  | timer
  | undefinedCause
  deriving DecidableEq, Repr

/-- Boot outcome of `setup()` (main.cpp:92-197). -/
structure BootResult where
  wokeFromDeepSleep : Bool
  playedBootAnimation : Bool
  reenteredDeepSleep : Bool
  bootCompleted : Bool
  deriving DecidableEq, Repr

/-- `setup()` as a function of the wake cause and of what a re-sample of
the touch wake line would read (`wakeLineTouched`); the source never
reads the latter. -/
def setupBoot (wakeCause : WakeCause) (_wakeLineTouched : Bool) : BootResult :=
  let woke := wakeCause = WakeCause.ext0 ∨ wakeCause = WakeCause.ext1
  { wokeFromDeepSleep := woke
    playedBootAnimation := !woke
    reenteredDeepSleep := false
    bootCompleted := true }

/-!
## Codec lemmas
-/

theorem wrap16_bounds (z : Int) : -32768 ≤ wrap16 z ∧ wrap16 z ≤ 32767 := by
  unfold wrap16
  have h1 : 0 ≤ (z + 32768) % 65536 := Int.emod_nonneg _ (by norm_num)
  have h2 : (z + 32768) % 65536 < 65536 := Int.emod_lt_of_pos _ (by norm_num)
  omega

theorem predUpdate_bounds (p d : Int) :
    -32768 ≤ predUpdate p d ∧ predUpdate p d ≤ 32767 := by
  obtain ⟨h1, h2⟩ := wrap16_bounds (p + d)
  simp only [predUpdate]
  split_ifs <;> omega

theorem indexUpdate_bounds (i : Int) (c : Nat) :
    0 ≤ indexUpdate i c ∧ indexUpdate i c ≤ 88 := by
  simp only [indexUpdate]
  split_ifs <;> omega

theorem updated_state_inv (p d i : Int) (c : Nat) :
    imaInv ⟨predUpdate p d, indexUpdate i c⟩ := by
  obtain ⟨h1, h2⟩ := predUpdate_bounds p d
  obtain ⟨h3, h4⟩ := indexUpdate_bounds i c
  exact ⟨h3, h4, h1, h2⟩

theorem encodeSample_inv (s : ImaState) (x : Int) :
    imaInv (encodeSample s x).1 := by
  simp only [encodeSample]
  exact updated_state_inv _ _ _ _

theorem encodeLoop_length (xs : List Int) : ∀ (s : ImaState) (pending : Option Nat),
    (encodeLoop s pending xs).1.length
      = (xs.length + (if pending.isSome then 1 else 0) + 1) / 2 := by
  induction xs with
  | nil =>
    intro s pending
    cases pending <;> simp [encodeLoop]
  | cons x xs ih =>
    intro s pending
    cases pending with
    | none =>
      simp [encodeLoop, ih]
    | some nib =>
      simp [encodeLoop, ih]
      omega

theorem encodeLoop_last (xs : List Int) : ∀ (s : ImaState) (pending : Option Nat),
    (∀ n, pending = some n → n < 16) →
    (xs.length + (if pending.isSome then 1 else 0)) % 2 = 1 →
    ∃ b, (encodeLoop s pending xs).1.getLast? = some b ∧ b < 16 := by
  induction xs with
  | nil =>
    intro s pending hp hpar
    cases pending with
    | none => simp at hpar
    | some n => exact ⟨n, by simp [encodeLoop], hp n rfl⟩
  | cons x xs ih =>
    intro s pending hp hpar
    cases pending with
    | none =>
      have hres := ih (encodeSample s x).1 (some ((encodeSample s x).2 % 16))
        (by
          intro n hn
          cases hn
          exact Nat.mod_lt _ (by norm_num))
        (by
          simp at hpar ⊢
          omega)
      simpa [encodeLoop] using hres
    | some nib =>
      have hxs : xs.length % 2 = 1 := by
        simp at hpar
        omega
      obtain ⟨b, hb, hb16⟩ := ih (encodeSample s x).1 none (by simp) (by simpa)
      refine ⟨b, ?_, hb16⟩
      have hlen := encodeLoop_length xs (encodeSample s x).1 none
      cases hrest : (encodeLoop (encodeSample s x).1 none xs).1 with
      | nil =>
        rw [hrest] at hb
        simp at hb
      | cons y ys =>
        rw [hrest] at hb
        simp only [encodeLoop, hrest]
        simpa using hb

theorem encodeLoop_state_inv (xs : List Int) :
    ∀ (s : ImaState) (pending : Option Nat), imaInv s →
    imaInv (encodeLoop s pending xs).2 := by
  induction xs with
  | nil =>
    intro s pending h
    cases pending <;> simpa [encodeLoop]
  | cons x xs ih =>
    intro s pending h
    cases pending with
    | none =>
      simpa [encodeLoop] using ih _ _ (encodeSample_inv s x)
    | some nib =>
      simpa [encodeLoop] using ih _ _ (encodeSample_inv s x)

/-!
## Claim theorems: codec
-/

/-- C6: `ima_encode_block(pcm, n, out)` writes exactly `ceil(n/2)` bytes;
for odd `n` the final byte is a bare nibble (high nibble zero); and the
leftover nibble is not carried across calls — two consecutive calls of
lengths `n1` and `n2` on the same running state write
`ceil(n1/2) + ceil(n2/2)` bytes in total. -/
theorem claim_C6_nibble_packing (s : ImaState) (pcm pcm2 : List Int) :
    (ima_encode_block s pcm).1.length = (pcm.length + 1) / 2
    ∧ (pcm.length % 2 = 1 →
        ∃ b, (ima_encode_block s pcm).1.getLast? = some b ∧ b < 16)
    ∧ (ima_encode_block s pcm).1.length
        + (ima_encode_block (ima_encode_block s pcm).2 pcm2).1.length
        = (pcm.length + 1) / 2 + (pcm2.length + 1) / 2 := by
  refine ⟨?_, ?_, ?_⟩
  · simpa using encodeLoop_length pcm s none
  · intro hodd
    exact encodeLoop_last pcm s none (by simp) (by simpa using hodd)
  · have h1 := encodeLoop_length pcm s none
    have h2 := encodeLoop_length pcm2 (ima_encode_block s pcm).2 none
    simp only [ima_encode_block] at h1 h2 ⊢
    simp at h1 h2
    omega

/-- Witness for C6 at a concrete odd-length input. -/
theorem claim_C6_nibble_packing_witness :
    (ima_encode_block ima_reset_state [100, 200, -300]).1.length = 2
    ∧ (∃ b, (ima_encode_block ima_reset_state [100, 200, -300]).1.getLast?
        = some b ∧ b < 16) := by
  have h := claim_C6_nibble_packing ima_reset_state [100, 200, -300] []
  exact ⟨h.1, h.2.1 (by decide)⟩

/-- C7: starting from `ima_reset_state`, the persistent codec state keeps
`stepIndex ∈ [0, 88]` and `predictedSample ∈ [-32768, 32767]` after every
per-sample update and at every block boundary of any sequence of
`ima_encode_block` calls. -/
theorem claim_C7_codec_state_bounds :
    imaInv ima_reset_state
    ∧ (∀ (s : ImaState) (x : Int), imaInv (encodeSample s x).1)
    ∧ (∀ (s : ImaState) (blocks : List (List Int)), imaInv s →
        imaInv (blocks.foldl (fun t pcm => (ima_encode_block t pcm).2) s)) := by
  refine ⟨by decide, encodeSample_inv, ?_⟩
  intro s blocks
  induction blocks generalizing s with
  | nil => intro h; simpa
  | cons pcm blocks ih =>
    intro h
    exact ih _ (encodeLoop_state_inv pcm s none h)

/-- Witness for C7 on a concrete two-block encoding run. -/
theorem claim_C7_codec_state_bounds_witness :
    imaInv (([[100, 200, -300], [5, -5]] : List (List Int)).foldl
      (fun t pcm => (ima_encode_block t pcm).2) ima_reset_state) :=
  claim_C7_codec_state_bounds.2.2 ima_reset_state [[100, 200, -300], [5, -5]]
    (by decide)

/-!
## Claim theorems: power state machine
-/

/-- C2: while `g_recordingInProgress` is set, `powerUpdate()` always
leaves the state `Active` (forcing a non-Active state back to `Active`),
and `powerForceLightSleep()` is a no-op. -/
theorem claim_C2_recording_latches_active (s : PowerSt) (now : Nat)
    (charging : Bool) :
    (powerUpdate s now true charging).powerState = POWER_ACTIVE
    ∧ powerForceLightSleep s now true = s := by
  constructor
  · simp only [powerUpdate]
    by_cases h : s.powerState = POWER_ACTIVE <;> simp [h]
  · simp [powerForceLightSleep]

/-- C4 counterexample: starting from `Active` at boot with the charger
attached and injecting no activity, idle time reaches
`TIMEOUT_LIGHT_SLEEP_MS` but the state stays `Dimmed` — the
`!g_isCharging` guard on the `Dimmed → LightSleep` transition
(power_manager.cpp:320) blocks the transition the claim promises. -/
theorem claim_C4_idle_descent_counterexample :
    (powerUpdate (powerUpdate (powerInit 0) 10000 false true)
        20000 false true).powerState = POWER_DIMMED
    ∧ sub32 20000 (powerUpdate (powerInit 0) 10000 false true).lastActivityMs
        ≥ TIMEOUT_LIGHT_SLEEP_MS := by decide

/-- C4 (amended with the charging/recording gates): with no recording in
progress, idle time `≥ TIMEOUT_DIM_MS` moves `Active` to `Dimmed`; with
additionally the charging flag false, idle time
`≥ TIMEOUT_LIGHT_SLEEP_MS` moves `Dimmed` to `LightSleep`; a single
`powerUpdate` never steps `Active` directly past `Dimmed`; and
`powerMarkActivity` returns `Dimmed` directly to `Active` (and keeps
`Active` at `Active`). -/
theorem claim_C4_idle_descent_amended (s : PowerSt) (now now2 : Nat)
    (r c : Bool) :
    (s.powerState = POWER_ACTIVE → sub32 now s.lastActivityMs ≥ TIMEOUT_DIM_MS →
      (powerUpdate s now false c).powerState = POWER_DIMMED)
    ∧ (s.powerState = POWER_DIMMED →
        sub32 now s.lastActivityMs ≥ TIMEOUT_LIGHT_SLEEP_MS →
        (powerUpdate s now false false).powerState = POWER_LIGHT_SLEEP)
    ∧ (s.powerState = POWER_ACTIVE →
        (powerUpdate s now r c).powerState = POWER_ACTIVE
        ∨ (powerUpdate s now r c).powerState = POWER_DIMMED)
    ∧ (s.powerState = POWER_DIMMED →
        (powerMarkActivity s now2).powerState = POWER_ACTIVE)
    ∧ (s.powerState = POWER_ACTIVE →
        (powerMarkActivity s now2).powerState = POWER_ACTIVE) := by
  refine ⟨?_, ?_, ?_, ?_, ?_⟩
  · intro hs hidle
    simp [powerUpdate, hs, hidle]
  · intro hs hidle
    simp [powerUpdate, hs, hidle]
  · intro hs
    cases r <;> simp [powerUpdate, hs] <;> split_ifs <;> simp [hs]
  · intro hs
    simp [powerMarkActivity, hs]
  · intro hs
    simp [powerMarkActivity, hs]

/-- Witness for the amended C4 on concrete states. -/
theorem claim_C4_idle_descent_amended_witness :
    (powerUpdate (powerInit 0) 10000 false false).powerState = POWER_DIMMED
    ∧ (powerUpdate { powerInit 0 with powerState := POWER_DIMMED }
        20000 false false).powerState = POWER_LIGHT_SLEEP
    ∧ (powerMarkActivity { powerInit 0 with powerState := POWER_DIMMED }
        5).powerState = POWER_ACTIVE := by
  have h1 := claim_C4_idle_descent_amended (powerInit 0) 10000 5 false false
  have h2 := claim_C4_idle_descent_amended
    { powerInit 0 with powerState := POWER_DIMMED } 20000 5 false false
  exact ⟨h1.1 (by decide) (by decide), h2.2.1 (by decide) (by decide),
    h2.2.2.2.1 (by decide)⟩

/-- C10: while `g_isCharging` is set, `powerUpdate()` never moves the
state into `LightSleep`, never newly enters `DeepSleep`, and moves a
`LightSleep` state out of sleep on the next call (to `Dimmed`, or to
`Active` when a recording is in progress). -/
theorem claim_C10_charging_blocks_sleep (s : PowerSt) (now : Nat) (r : Bool) :
    (powerUpdate s now r true).powerState ≠ POWER_LIGHT_SLEEP
    ∧ ((powerUpdate s now r true).powerState = POWER_DEEP_SLEEP →
        s.powerState = POWER_DEEP_SLEEP)
    ∧ (s.powerState = POWER_LIGHT_SLEEP →
        (powerUpdate s now r true).powerState
          = (if r then POWER_ACTIVE else POWER_DIMMED)) := by
  obtain ⟨ps, sl, dm, la, ls, wk⟩ := s
  cases ps <;> cases r <;>
    simp [powerUpdate] <;> split_ifs <;> simp

/-- Witness for C10: a charging `LightSleep` state returns to `Dimmed`. -/
theorem claim_C10_charging_blocks_sleep_witness :
    (powerUpdate { powerInit 0 with powerState := POWER_LIGHT_SLEEP }
      300000 false true).powerState = POWER_DIMMED := by
  have h := claim_C10_charging_blocks_sleep
    { powerInit 0 with powerState := POWER_LIGHT_SLEEP } 300000 false
  simpa using h.2.2 (by decide)

/-!
## Recording / application state-machine lemmas
-/

theorem stopMic_spec (s : RecSt) : stopMic s = { s with micRunning := false } := by
  unfold stopMic
  split_ifs with h
  · obtain ⟨c, n, mi, mr, ir, rp, cs, a1, a2, a3, a4, a5, a6, a7, a8⟩ := s
    simp_all
  · rfl

theorem startMic_conn (s : RecSt) (now : Nat) (hwOk : Bool) :
    (startMic s now hwOk).bleConnected = s.bleConnected := by
  unfold startMic
  split_ifs <;> rfl

theorem stopRecording_spec (s : RecSt) (now : Nat) :
    (stopRecording s now).recordingInProgress = false
    ∧ (stopRecording s now).isRecording = false
    ∧ (stopRecording s now).micRunning = false
    ∧ (stopRecording s now).bleConnected = s.bleConnected
    ∧ (stopRecording s now).currentState
        = (if canSendControlMessages s then WAITING_ANSWER else IDLE) := by
  unfold stopRecording
  rw [stopMic_spec]
  simp only [canSendControlMessages]
  split_ifs <;> simp_all

theorem updateRecording_cases (s : RecSt) (now : Nat) (read : Option (List Int)) :
    ((updateRecording s now read).recordingInProgress = s.recordingInProgress
      ∧ (updateRecording s now read).bleConnected = s.bleConnected)
    ∨ updateRecording s now read = stopRecording s now := by
  unfold updateRecording
  split_ifs with h1 h2 h3
  · exact Or.inl ⟨rfl, rfl⟩
  · exact Or.inr rfl
  · exact Or.inr rfl
  · cases read with
    | none => exact Or.inl ⟨rfl, rfl⟩
    | some pcm =>
      simp only
      split_ifs <;> exact Or.inl ⟨rfl, rfl⟩

theorem recStep_preserves_conn (s : RecSt) (e : RecEvent)
    (h : s.recordingInProgress = true → s.bleConnected = true) :
    (recStep s e).recordingInProgress = true →
    (recStep s e).bleConnected = true := by
  cases e with
  | connect => simp [recStep, onConnect]
  | disconnect =>
    simp only [recStep, onDisconnect]
    split_ifs with hr
    · rw [stopMic_spec]
      simp
    · simp_all
  | cccdWrite b => simpa [recStep, setNotify] using h
  | startRec now hwOk =>
    simp only [recStep, startRecording]
    split_ifs with hc
    · exact h
    · intro _
      have hconn : s.bleConnected = true := by
        cases hb : s.bleConnected
        · exact absurd (by simp [canSendControlMessages, hb]) hc
        · rfl
      simp [clearRecordingBuffer, startMic_conn, hconn]
  | stopRec now =>
    simp [recStep, (stopRecording_spec s now).1]
  | pump now read =>
    rcases updateRecording_cases s now read with ⟨hrp, hbc⟩ | hstop
    · simp only [recStep, hrp, hbc]
      exact h
    · simp [recStep, hstop, (stopRecording_spec s now).1]
  | waitCheck now =>
    simp only [recStep, checkWaitingTimeout]
    split_ifs <;> simpa using h

theorem recTrace_inv (tr : List RecEvent) :
    ∀ s0 : RecSt, (s0.recordingInProgress = true → s0.bleConnected = true) →
    (tr.foldl recStep s0).recordingInProgress = true →
    (tr.foldl recStep s0).bleConnected = true := by
  induction tr with
  | nil => intro s0 h; simpa using h
  | cons e tr ih =>
    intro s0 h
    exact ih _ (recStep_preserves_conn s0 e h)

/-!
## Claim theorems: recording vs. connection
-/

/-- C3: in every reachable state a recording session is active only while
the transport is connected; the disconnect callback delivered during an
active session clears the recording flags, stops the mic and forces
application state `IDLE`; and `updateRecording` forces an immediate stop
(flags cleared, mic stopped, state `IDLE`) whenever the transport reports
disconnected. -/
theorem claim_C3_recording_requires_connection :
    (∀ s : RecSt, recReachable s → s.recordingInProgress = true →
      s.bleConnected = true)
    ∧ (∀ s : RecSt, s.recordingInProgress = true →
        (onDisconnect s).recordingInProgress = false
        ∧ (onDisconnect s).isRecording = false
        ∧ (onDisconnect s).micRunning = false
        ∧ (onDisconnect s).currentState = IDLE)
    ∧ (∀ (s : RecSt) (now : Nat) (read : Option (List Int)),
        s.micRunning = true → s.isRecording = true → s.bleConnected = false →
        (updateRecording s now read).recordingInProgress = false
        ∧ (updateRecording s now read).isRecording = false
        ∧ (updateRecording s now read).micRunning = false
        ∧ (updateRecording s now read).currentState = IDLE) := by
  refine ⟨?_, ?_, ?_⟩
  · rintro s ⟨tr, rfl⟩
    exact recTrace_inv tr recInit (by simp [recInit])
  · intro s hr
    simp only [onDisconnect, hr, if_true]
    rw [stopMic_spec]
    simp
  · intro s now read hmic hrec hconn
    have hstop : updateRecording s now read = stopRecording s now := by
      unfold updateRecording
      simp [hmic, hrec, hconn]
    obtain ⟨h1, h2, h3, h4, h5⟩ := stopRecording_spec s now
    rw [hstop, h5] at *
    refine ⟨h1, h2, h3, ?_⟩
    rw [h5]
    simp [canSendControlMessages, hconn]

/-- Witness for C3 on a concrete trace that connects, enables
notifications, starts recording and then receives the disconnect
callback. -/
theorem claim_C3_recording_requires_connection_witness :
    (([RecEvent.connect, RecEvent.cccdWrite true, RecEvent.startRec 100 true] :
        List RecEvent).foldl recStep recInit).bleConnected = true
    ∧ (onDisconnect (([RecEvent.connect, RecEvent.cccdWrite true,
        RecEvent.startRec 100 true] : List RecEvent).foldl recStep
          recInit)).currentState = IDLE := by
  have h := claim_C3_recording_requires_connection
  refine ⟨h.1 _ ⟨[RecEvent.connect, RecEvent.cccdWrite true,
    RecEvent.startRec 100 true], rfl⟩ (by decide), ?_⟩
  exact (h.2.1 _ (by decide)).2.2.2

/-- C9: when a recording session has run past
`RECORDING_MAX_DURATION_MS`, the next `updateRecording` call invokes
`stopRecording`, after which the recording flags are cleared and the
application state is `WAITING_ANSWER` when control messages can still be
sent (`canSendControlMessages`, i.e. the transport is still connected
with notifications enabled), else `IDLE`. -/
theorem claim_C9_max_duration_forces_stop (s : RecSt) (now : Nat)
    (read : Option (List Int))
    (hmic : s.micRunning = true) (hrec : s.isRecording = true)
    (hdur : sub32 now s.audioStartMs > RECORDING_MAX_DURATION_MS) :
    updateRecording s now read = stopRecording s now
    ∧ (stopRecording s now).recordingInProgress = false
    ∧ (stopRecording s now).isRecording = false
    ∧ (stopRecording s now).currentState
        = (if canSendControlMessages s then WAITING_ANSWER else IDLE) := by
  obtain ⟨h1, h2, h3, h4, h5⟩ := stopRecording_spec s now
  refine ⟨?_, h1, h2, h5⟩
  unfold updateRecording
  simp [hmic, hrec, hdur]

/-- Witness for C9: a session started at `t = 100` pumped at `t = 70000`
(past the 60 s cap) stops and moves to `WAITING_ANSWER` since the
transport is still connected. -/
theorem claim_C9_max_duration_forces_stop_witness :
    (updateRecording
        (([RecEvent.connect, RecEvent.cccdWrite true,
          RecEvent.startRec 100 true] : List RecEvent).foldl recStep recInit)
        70000 (some [1, 2, 3])).currentState = WAITING_ANSWER := by
  have h := claim_C9_max_duration_forces_stop
    (([RecEvent.connect, RecEvent.cccdWrite true,
      RecEvent.startRec 100 true] : List RecEvent).foldl recStep recInit)
    70000 (some [1, 2, 3]) (by decide) (by decide) (by decide)
  rw [h.1, h.2.2.2]
  decide

/-!
## File-retrieval lemmas
-/

theorem fileChunks_flatten (buf : List Nat) : (fileChunks buf).flatten = buf := by
  induction buf using fileChunks.induct with
  | case1 => simp [fileChunks]
  | case2 b hne ih =>
    rw [fileChunks]
    simp [hne, ih]

theorem fileChunks_dropLast_length (buf : List Nat) :
    ∀ c ∈ (fileChunks buf).dropLast, c.length = 128 := by
  induction buf using fileChunks.induct with
  | case1 =>
    intro c hc
    simp [fileChunks] at hc
  | case2 b hne ih =>
    intro c hc
    rw [fileChunks, if_neg hne] at hc
    by_cases hd : b.drop 128 = []
    · rw [hd] at hc
      simp [fileChunks] at hc
    · have hrest : fileChunks (b.drop 128) ≠ [] := by
        rw [fileChunks, if_neg hd]
        simp
      rw [List.dropLast_cons_of_ne_nil hrest] at hc
      rcases List.mem_cons.mp hc with hc | hc
      · subst hc
        have hlen : 128 < b.length := by
          have := List.length_drop 128 b
          have hne2 : b.drop 128 ≠ [] := hd
          have : (b.drop 128).length ≠ 0 := by
            intro h0
            exact hne2 (List.length_eq_zero.mp h0)
          simp [List.length_drop] at this ⊢
          omega
        simp [List.length_take]
        omega
      · exact ih c hc

theorem fileChunks_getLast (buf : List Nat) (h : buf ≠ []) :
    ∃ l, (fileChunks buf).getLast? = some l
      ∧ 0 < l.length ∧ l.length ≤ 128 := by
  induction buf using fileChunks.induct with
  | case1 => exact absurd rfl h
  | case2 b hne ih =>
    rw [fileChunks, if_neg hne]
    by_cases hd : b.drop 128 = []
    · rw [hd]
      refine ⟨b.take 128, ?_, ?_, ?_⟩
      · simp [fileChunks]
      · have : b.length ≠ 0 := by
          intro h0
          exact hne (List.length_eq_zero.mp h0)
        simp [List.length_take]
        omega
      · simp [List.length_take]
    · obtain ⟨l, hl, hl1, hl2⟩ := ih hd
      refine ⟨l, ?_, hl1, hl2⟩
      cases hrest : fileChunks (b.drop 128) with
      | nil =>
        rw [hrest] at hl
        simp at hl
      | cons y ys =>
        rw [hrest] at hl
        rw [List.getLast?_cons_cons]
        simpa using hl

/-!
## Claim theorems: file-retrieval channel
-/

/-- C5 counterexample: a write of the single byte `0x01` while the
recorded buffer is empty produces no notifications at all — in
particular no 4-byte length header is sent, contrary to the claim that
every such write is answered with a header as the first notification
(`sendRecordedFileOverBle` returns immediately on an empty buffer,
ble_file.cpp:11-13). -/
theorem claim_C5_file_transfer_counterexample :
    fileOnWrite [] [1] = [] ∧ (fileOnWrite [] [1]).head? = none := by decide

/-- C5 (amended to non-empty buffers): for every write of the single
byte `0x01` while the recorded buffer is non-empty, the first
notification is the 4-byte little-endian total length, and the remaining
notifications are 128-byte chunks — every chunk except the last has
exactly 128 bytes, the last has between 1 and 128 — whose concatenation
is the full recorded buffer.  An empty buffer produces no
notifications. -/
theorem claim_C5_file_transfer_amended (buf : List Nat) (h : buf ≠ []) :
    (fileOnWrite buf [1]).head? = some (le32 buf.length)
    ∧ ((fileOnWrite buf [1]).tail).flatten = buf
    ∧ (∀ c ∈ (fileOnWrite buf [1]).tail.dropLast, c.length = 128)
    ∧ (∃ l, (fileOnWrite buf [1]).tail.getLast? = some l
        ∧ 0 < l.length ∧ l.length ≤ 128) := by
  have hw : fileOnWrite buf [1] = le32 buf.length :: fileChunks buf := by
    simp [fileOnWrite, sendRecordedFileOverBle, h]
  rw [hw]
  refine ⟨rfl, ?_, ?_, ?_⟩
  · simpa using fileChunks_flatten buf
  · simpa using fileChunks_dropLast_length buf
  · simpa using fileChunks_getLast buf h

/-- Witness for the amended C5 on a concrete 3-byte buffer. -/
theorem claim_C5_file_transfer_amended_witness :
    (fileOnWrite [5, 6, 7] [1]).head? = some [3, 0, 0, 0]
    ∧ ((fileOnWrite [5, 6, 7] [1]).tail).flatten = [5, 6, 7] := by
  have h := claim_C5_file_transfer_amended [5, 6, 7] (by decide)
  exact ⟨h.1, h.2.1⟩

/-!
## Claim theorems: connection-parameter throttling
-/

/-- C8 counterexample: not every connection-parameter-change request is
time-throttled.  `bleEnterSleepMode()` issues its sleep-profile request
through a direct `esp_ble_gap_update_conn_params` call that never
consults `s_lastParamUpdateMs`: in a connected state whose previous
parameter change was recorded at `t = 1000`, the sleep-mode request is
issued even though (e.g. at `t = 1400`) far less than
`BLE_PARAM_UPDATE_MIN_INTERVAL_MS` has elapsed. -/
theorem claim_C8_throttle_counterexample :
    (bleEnterSleepMode
      { connId := 0, bleConnected := true, activeTransfer := false,
        lastParamUpdateMs := 1000, sleepMode := false,
        fastAdvActive := false }).2 = true
    ∧ sub32 1400 1000 < BLE_PARAM_UPDATE_MIN_INTERVAL_MS := by decide

/-- C8 (amended to the requests that go through
`requestConnectionParams`): such a request is suppressed — no radio
request, state unchanged — when the requested profile equals the current
one or when a previous change with a nonzero timestamp happened less
than `BLE_PARAM_UPDATE_MIN_INTERVAL_MS` ago; consequently, of two
`requestConnectionParams` requests within the minimum throttle interval
only the first takes effect.  Sleep-mode entry/exit requests are guarded
only by the `s_bleSleepMode` flag, not by the time throttle. -/
theorem claim_C8_throttle_amended (s : BleSt) (now t2 : Nat) (a b : Bool) :
    (s.activeTransfer = a → requestConnectionParams s now a = (s, false))
    ∧ (0 < s.lastParamUpdateMs →
        sub32 now s.lastParamUpdateMs < BLE_PARAM_UPDATE_MIN_INTERVAL_MS →
        requestConnectionParams s now a = (s, false))
    ∧ (0 < now → (requestConnectionParams s now a).2 = true →
        sub32 t2 now < BLE_PARAM_UPDATE_MIN_INTERVAL_MS →
        requestConnectionParams (requestConnectionParams s now a).1 t2 b
          = ((requestConnectionParams s now a).1, false)) := by
  refine ⟨?_, ?_, ?_⟩
  · intro ha
    unfold requestConnectionParams
    split_ifs <;> simp_all
  · intro hpos hthr
    unfold requestConnectionParams
    split_ifs <;> simp_all
  · intro hnow hiss hthr
    have hs1 : (requestConnectionParams s now a).1
        = { s with activeTransfer := a, lastParamUpdateMs := now } := by
      unfold requestConnectionParams at hiss ⊢
      split_ifs at hiss ⊢ <;> simp_all
    rw [hs1]
    by_cases hb : a = b
    · subst hb
      unfold requestConnectionParams
      split_ifs <;> simp_all
    · unfold requestConnectionParams
      split_ifs <;> simp_all

/-- Witness for the amended C8: a profile change issued at `t = 2000`
suppresses a second change requested at `t = 2500`. -/
theorem claim_C8_throttle_amended_witness :
    requestConnectionParams
      (requestConnectionParams
        { connId := 0, bleConnected := true, activeTransfer := false,
          lastParamUpdateMs := 0, sleepMode := false, fastAdvActive := false }
        2000 true).1 2500 false
    = ((requestConnectionParams
        { connId := 0, bleConnected := true, activeTransfer := false,
          lastParamUpdateMs := 0, sleepMode := false, fastAdvActive := false }
        2000 true).1, false) := by
  have h := claim_C8_throttle_amended
    { connId := 0, bleConnected := true, activeTransfer := false,
      lastParamUpdateMs := 0, sleepMode := false, fastAdvActive := false }
    2000 2500 true false
  exact h.2.2 (by decide) (by decide) (by decide)

/-!
## Claim theorem: boot wake validation
-/

/-- C1 (documents the divergence): on a cold boot whose wake cause is a
deep-sleep wake trigger (`ESP_SLEEP_WAKEUP_EXT0`, the touch line) and
whose re-sampled wake line reads "no touch", `setup()` nevertheless
completes full boot initialisation and never re-enters deep sleep: the
wake-source validation required by the spec (declared as
`powerValidateWake` in power_manager.h:112-114) is neither defined nor
called anywhere in the repository. -/
theorem claim_C1_wake_validation_missing :
    setupBoot WakeCause.ext0 false
      = { wokeFromDeepSleep := true, playedBootAnimation := false,
          reenteredDeepSleep := false, bootCompleted := true }
    ∧ ∀ (cause : WakeCause) (line : Bool),
        (setupBoot cause line).bootCompleted = true
        ∧ (setupBoot cause line).reenteredDeepSleep = false := by
  constructor
  · decide
  · intro cause line
    cases cause <;> exact ⟨rfl, rfl⟩

end Hollow
